import Mathlib

/-!
Shallow embedding of the SatFinder application (`src/app.py`).

The program queries three HTTP services (Wikipedia search/summary, Wikidata,
Celestrak) and merges the results into one display record.  We embed:

* JSON-like Python values as the inductive type `J`, together with Python's
  truthiness, `dict.get` (which raises `AttributeError` on non-dicts) and
  subscripting;
* each adapter function (`wiki_search_title`, `wiki_summary`,
  `wikidata_qid_from_title`, `wikidata_entity`, `celestrak_tle`) as a function
  of the HTTP outcome it observes (`Http`): a network failure makes
  `requests.get` raise, which we model as `Except.error`; a response carries a
  status code and a body (for the JSON endpoints the body is `Option J`,
  `none` meaning `r.json()` raises a decode error);
* the claim accessor `get_claim_value` and the table builder `make_table`;
* the top-level search handler (`app.py` lines 158-231) as `searchFlow`,
  parameterised by pure adapter oracles (`Adapters`) and instrumented with a
  list of adapter-call events (`Ev`) so that statements about which adapters
  are consulted, and in which order, can be made precise.

Python dicts are modelled as association lists with distinct keys (first
match wins, as in the JSON objects the services return).
-/

/-- JSON-like Python values (the results of `r.json()` and their parts). -/
inductive J : Type where
  | null : J
  | bool : Bool → J
  | num : Int → J
  | str : String → J
  | arr : List J → J
  | obj : List (String × J) → J

/-- Python truthiness (`if x:`) for `J` values. -/
def J.truthy : J → Bool
  | .null => false
  | .bool b => b
  | .num n => n != 0
  | .str s => !s.isEmpty
  | .arr xs => !xs.isEmpty
  | .obj kvs => !kvs.isEmpty

/-- Python `x.get(k, d)`: only dicts have `.get`; anything else raises
`AttributeError`. -/
def J.getD : J → String → J → Except String J
  | .obj kvs, k, d => .ok ((kvs.lookup k).getD d)
  | _, _, _ => .error "AttributeError"

/-- Python `x.get(k)` (no default, i.e. default `None`). -/
def J.getN (j : J) (k : String) : Except String J :=
  j.getD k J.null

/-- Python `x[0]`: first list element, first character of a string, integer
key lookup on a dict (our keys are strings, so `KeyError`), `TypeError`
otherwise; an empty sequence raises `IndexError`. -/
def J.index0 : J → Except String J
  | .arr (x :: _) => .ok x
  | .arr [] => .error "IndexError"
  | .str s =>
    match s.data with
    | [] => .error "IndexError"
    | c :: _ => .ok (.str (String.mk [c]))
  | .obj _ => .error "KeyError"
  | _ => .error "TypeError"

/-- Python `x[k]` with a string key: dict lookup (missing key raises
`KeyError`), `TypeError` on non-dicts. -/
def J.indexS : J → String → Except String J
  | .obj kvs, k =>
    match kvs.lookup k with
    | some v => .ok v
    | none => .error "KeyError"
  | _, _ => .error "TypeError"

/-- `dict.get` on a value that is statically known to be a dict
(association list): total. -/
def jLookupD (kvs : List (String × J)) (k : String) (d : J) : J :=
  (kvs.lookup k).getD d

/-- Translate a Python return value into `Option`: Python `None` is `none`,
everything else is `some`. -/
def pyToOpt : J → Option J
  | .null => none
  | .bool b => some (.bool b)
  | .num n => some (.num n)
  | .str s => some (.str s)
  | .arr xs => some (.arr xs)
  | .obj kvs => some (.obj kvs)

/-- Truthiness of a Python `str | None` value. -/
def otruthy : Option String → Bool
  | none => false
  | some s => !s.isEmpty

/-- A Python `str | None` value as a `J` value. -/
def otoJ : Option String → J
  | none => J.null
  | some s => J.str s

/-- Truthiness of a Python `list[str] | None` value (`if tle:`). -/
def tleTruthy : Option (List String) → Bool
  | some (_ :: _) => true
  | _ => false

/-- Truthiness of a Python `dict | None` value (`if ent:`). -/
def entTruthy : Option (List (String × J)) → Bool
  | some (_ :: _) => true
  | _ => false

/-- Python `s.strip()`. -/
def pyStrip (s : String) : String :=
  String.mk (((s.data.dropWhile Char.isWhitespace).reverse.dropWhile
    Char.isWhitespace).reverse)

/-- Worker for `pySplitlines`: accumulate the current line (reversed). -/
def splitlinesAux : List Char → List Char → List String
  | [], acc => if acc.isEmpty then [] else [String.mk acc.reverse]
  | '\r' :: '\n' :: rest, acc => String.mk acc.reverse :: splitlinesAux rest []
  | '\r' :: rest, acc => String.mk acc.reverse :: splitlinesAux rest []
  | '\n' :: rest, acc => String.mk acc.reverse :: splitlinesAux rest []
  | c :: rest, acc => splitlinesAux rest (c :: acc)

/-- Python `s.splitlines()` for the common line boundaries
(newline, carriage return, and the two-character sequence). -/
def pySplitlines (s : String) : List String :=
  splitlinesAux s.data []

/-- Truthiness of `l.strip()`: the line has a non-whitespace character. -/
def lineTruthy (l : String) : Bool :=
  l.data.any (fun c => !c.isWhitespace)

/-- `p` is a prefix of `l` (on characters). -/
def charsPrefix : List Char → List Char → Bool
  | [], _ => true
  | _ :: _, [] => false
  | p :: ps, c :: cs => p == c && charsPrefix ps cs

/-- `p` occurs as a contiguous run inside `l`. -/
def charsInfix (p : List Char) : List Char → Bool
  | [] => charsPrefix p []
  | c :: cs => charsPrefix p (c :: cs) || charsInfix p cs

/-- Python `"No GP data" in r.text`. -/
def hasNoGPMarker (t : String) : Bool :=
  charsInfix "No GP data".data t.data

/-- The non-blank lines of the stripped catalog response text
(`app.py` line 101). -/
def nonblankLines (t : String) : List String :=
  (pySplitlines (pyStrip t)).filter lineTruthy

/-- The outcome of one HTTP request: the network layer fails (and
`requests.get` raises), or a response arrives with a status code and body. -/
inductive Http (β : Type) : Type where
  | netfail : Http β
  | resp : Nat → β → Http β

/-- `wiki_search_title` (`app.py` lines 24-40): top search hit title.
The body of a response is `some j` when `r.json()` parses to `j`, `none`
when it raises a decode error.  Returns `hits[0]["title"]` if `hits` else
`None`. -/
def wiki_search_title (h : Http (Option J)) : Except String (Option J) :=
  match h with
  | .netfail => .error "RequestException"
  | .resp _ none => .error "JSONDecodeError"
  | .resp _ (some j) =>
    (j.getD "query" (J.obj [])).bind fun qv =>
    (qv.getD "search" (J.arr [])).bind fun hits =>
    if hits.truthy then
      (hits.index0).bind fun h0 =>
      (h0.indexS "title").map fun t => some t
    else .ok none

/-- `wiki_summary` (`app.py` lines 44-47): `r.json()` when the status is
200, the empty dict otherwise. -/
def wiki_summary (h : Http (Option J)) : Except String J :=
  match h with
  | .netfail => .error "RequestException"
  | .resp status body =>
    if status = 200 then
      match body with
      | some j => .ok j
      | none => .error "JSONDecodeError"
    else .ok (J.obj [])

/-- The loop of `wikidata_qid_from_title` (`app.py` lines 60-64): first
truthy `pg["pageprops"]["wikibase_item"]` over the pages, else `None`. -/
def qidScan : List (String × J) → Except String (Option J)
  | [] => .ok none
  | (_, pg) :: rest =>
    (pg.getD "pageprops" (J.obj [])).bind fun pp =>
    (pp.getN "wikibase_item").bind fun qid =>
    if qid.truthy then .ok (some qid) else qidScan rest

/-- `wikidata_qid_from_title` (`app.py` lines 51-64). -/
def wikidata_qid_from_title (h : Http (Option J)) : Except String (Option J) :=
  match h with
  | .netfail => .error "RequestException"
  | .resp _ none => .error "JSONDecodeError"
  | .resp _ (some j) =>
    (j.getD "query" (J.obj [])).bind fun qv =>
    (qv.getD "pages" (J.obj [])).bind fun pages =>
    match pages with
    | .obj kvs => qidScan kvs
    | _ => .error "AttributeError"

/-- `wikidata_entity` (`app.py` lines 68-72):
`r.json().get("entities", {}).get(qid, {})`. -/
def wikidata_entity (qid : String) (h : Http (Option J)) : Except String J :=
  match h with
  | .netfail => .error "RequestException"
  | .resp _ none => .error "JSONDecodeError"
  | .resp _ (some j) =>
    (j.getD "entities" (J.obj [])).bind fun ents =>
    ents.getD qid (J.obj [])

/-- `celestrak_tle` (`app.py` lines 91-102).  The response body is the raw
text.  `None` on a non-200 status or the no-data marker; otherwise the first
three non-blank lines, or `None` when there are none. -/
def celestrak_tle (h : Http String) : Except String (Option (List String)) :=
  match h with
  | .netfail => .error "RequestException"
  | .resp status text =>
    if status ≠ 200 ∨ hasNoGPMarker text = true then .ok none
    else
      let lines := nonblankLines text
      .ok (if lines.isEmpty then none else some (lines.take 3))

/-- `get_claim_value` (`app.py` lines 75-87).  `kind` is always passed as
the Python default string elsewhere in the program.  Python `None` results
are `Option.none`; `AttributeError` and friends are `Except.error`. -/
def get_claim_value (ent : J) (prop : String) (kind : String) :
    Except String (Option J) :=
  (ent.getD "claims" (J.obj [])).bind fun c =>
  (c.getD prop (J.arr [])).bind fun v =>
  if ¬ v.truthy then .ok none
  else
    (v.index0).bind fun v0 =>
    (v0.getD "mainsnak" (J.obj [])).bind fun mainsnak =>
    (mainsnak.getD "datavalue" (J.obj [])).bind fun dv =>
    (dv.getN "value").bind fun val =>
    if ¬ val.truthy then .ok none
    else if kind = "time|str" then
      match val with
      | .obj vkvs => .ok (pyToOpt (jLookupD vkvs "time" J.null))
      | _ => .ok (some val)
    else .ok (some val)

/-- The optional TLE rows of the table (`app.py` lines 126-131): present
only when `tle_lines` is truthy; short lists give `None` cells. -/
def tleRows (tle_lines : Option (List String)) : List (String × Option J) :=
  if tleTruthy tle_lines then
    [("TLE Name", ((tle_lines.getD [])[0]?).map J.str),
     ("TLE Line 1", ((tle_lines.getD [])[1]?).map J.str),
     ("TLE Line 2", ((tle_lines.getD [])[2]?).map J.str)]
  else []

/-- The claims block of `make_table` (`app.py` lines 113-117): the three
fixed properties are read only when the entity is truthy (`if ent:`);
otherwise all three stay `None`. -/
def claimTriple (ent : Option (List (String × J))) :
    Except String (Option J × Option J × Option J) :=
  if entTruthy ent then
    (get_claim_value (J.obj (ent.getD [])) "P619" "time|str").bind fun launch =>
    (get_claim_value (J.obj (ent.getD [])) "P247" "time|str").bind fun cospar =>
    (get_claim_value (J.obj (ent.getD [])) "P593" "time|str").map fun norad =>
    (launch, cospar, norad)
  else .ok (none, none, none)

/-- `make_table` (`app.py` lines 105-132).  The summary is a dict (the
annotation of `wiki_summary`); the entity is `dict | None`.  The `extract`
field is read in the source but never placed in the table, so it is not
modelled.  The result is the `DataFrame`'s row list (field label, value). -/
def make_table (summary : List (String × J)) (ent : Option (List (String × J)))
    (tle_lines : Option (List String)) :
    Except String (List (String × Option J)) :=
  let title := pyToOpt (jLookupD summary "title" J.null)
  let desc := pyToOpt (jLookupD summary "description" J.null)
  (claimTriple ent).map fun lcn =>
  [("제목(Title)", title), ("설명(Description)", desc),
   ("발사일(Launch Date)", lcn.1), ("COSPAR ID", lcn.2.1),
   ("NORAD ID", lcn.2.2)] ++ tleRows tle_lines

/-- One adapter invocation made by the search handler, recorded so that
statements about which adapters are consulted (and in which order) are
precise. -/
inductive Ev : Type where
  | search : String → String → Ev
  | qid : String → String → Ev
  | entity : String → Ev
  | summary : String → String → Ev
  | tle : String → Ev
deriving DecidableEq

/-- Pure oracles for the five adapters, as the search handler sees them.
`searchTitle` and `qidFromTitle` return `str | None` (per the source
annotations), `entityOf` and `summaryOf` return dicts, `tleOf` returns
`list[str] | None`. -/
structure Adapters : Type where
  searchTitle : String → String → Option String
  qidFromTitle : String → String → Option String
  entityOf : String → List (String × J)
  summaryOf : String → String → List (String × J)
  tleOf : String → Option (List String)

/-- QID resolution (`app.py` lines 174-179): try the ko title, then the en
title if the first attempt was falsy. -/
def qidResolve (A : Adapters) (title_ko title_en : Option String) :
    Option String × List Ev :=
  let first : Option String × List Ev :=
    if otruthy title_ko then
      (A.qidFromTitle (title_ko.getD "") "ko", [Ev.qid (title_ko.getD "") "ko"])
    else (none, [])
  if ¬ otruthy first.1 ∧ otruthy title_en then
    (A.qidFromTitle (title_en.getD "") "en",
      first.2 ++ [Ev.qid (title_en.getD "") "en"])
  else first

/-- Entity fetch (`app.py` line 181): `wikidata_entity(qid) if qid else
None`. -/
def entityPhase (A : Adapters) (qid : Option String) :
    Option (List (String × J)) × List Ev :=
  if otruthy qid then
    (some (A.entityOf (qid.getD "")), [Ev.entity (qid.getD "")])
  else (none, [])

/-- Sitelink titles (`app.py` lines 182-184): `sitelinks = ent.get
("sitelinks", {}) if ent else {}`, then `.get("kowiki", {}).get("title")`
and likewise for `enwiki`; each nested `.get` raises on a non-dict. -/
def sitelinkTitles (ent : Option (List (String × J))) : Except String (J × J) :=
  let sitelinks : J :=
    if entTruthy ent then jLookupD (ent.getD []) "sitelinks" (J.obj [])
    else J.obj []
  if sitelinks.truthy then
    (sitelinks.getD "kowiki" (J.obj [])).bind fun kow =>
    (kow.getN "title").bind fun ko =>
    (sitelinks.getD "enwiki" (J.obj [])).bind fun enw =>
    (enw.getN "title").map fun en => (ko, en)
  else .ok (J.null, J.null)

/-- One summary attempt (`app.py` lines 191-198): when no summary has been
found yet and the candidate title is truthy, call the summary adapter with
it (a truthy non-string title would make the underlying request raise). -/
def attemptSummary (A : Adapters) (lang : String) (cand : J)
    (st : List (String × J) × List Ev) :
    Except String (List (String × J) × List Ev) :=
  if st.1.isEmpty ∧ cand.truthy then
    match cand with
    | J.str t => .ok (A.summaryOf t lang, st.2 ++ [Ev.summary t lang])
    | _ => .error "TypeError"
  else .ok st

/-- Run the summary attempts in order. -/
def summaryFold (A : Adapters) :
    List (J × String) → List (String × J) × List Ev →
    Except String (List (String × J) × List Ev)
  | [], st => .ok st
  | (c, lang) :: rest, st => (attemptSummary A lang c st).bind (summaryFold A rest)

/-- The summary candidates in source order (`app.py` lines 191-198):
ko canonical, ko search, en canonical, en search. -/
def summaryCands (ko_q en_q : J) (title_ko title_en : Option String) :
    List (J × String) :=
  [(ko_q, "ko"), (otoJ title_ko, "ko"), (en_q, "en"), (otoJ title_en, "en")]

/-- The summary block (`app.py` lines 188-198). -/
def summaryPhase (A : Adapters) (ko_q en_q : J) (title_ko title_en : Option String) :
    Except String (List (String × J) × List Ev) :=
  summaryFold A (summaryCands ko_q en_q title_ko title_en) ([], [])

/-- One iteration of the TLE fallback loop (`app.py` lines 209-213): once a
truthy TLE has been found the loop has broken; otherwise a truthy candidate
is sent to the catalog adapter (overwriting the previous attempt). -/
def attemptTle (A : Adapters) (cand : J)
    (st : Option (List String) × List Ev) :
    Except String (Option (List String) × List Ev) :=
  if tleTruthy st.1 then .ok st
  else if cand.truthy then
    match cand with
    | J.str t => .ok (A.tleOf t, st.2 ++ [Ev.tle t])
    | _ => .error "TypeError"
  else .ok st

/-- Run the TLE fallback attempts in order. -/
def tleFold (A : Adapters) :
    List J → Option (List String) × List Ev →
    Except String (Option (List String) × List Ev)
  | [], st => .ok st
  | c :: rest, st => (attemptTle A c st).bind (tleFold A rest)

/-- The TLE fallback candidates in source order (`app.py` line 209):
en canonical, en search, ko canonical, ko search. -/
def tleCands (ko_q en_q : J) (title_ko title_en : Option String) : List J :=
  [en_q, otoJ title_en, ko_q, otoJ title_ko]

/-- The TLE block (`app.py` lines 204-213): the raw query is tried exactly
when the checkbox flag is set; the fallback loop runs exactly when the
result so far `is None`. -/
def tlePhase (A : Adapters) (q : String) (use_exact : Bool)
    (ko_q en_q : J) (title_ko title_en : Option String) :
    Except String (Option (List String) × List Ev) :=
  let st0 : Option (List String) × List Ev :=
    if use_exact then (A.tleOf q, [Ev.tle q]) else (none, [])
  if st0.1.isNone then tleFold A (tleCands ko_q en_q title_ko title_en) st0
  else .ok st0

/-- How a run of the search handler ends. -/
inductive Outcome : Type where
  | emptyQuery : Outcome
  | notFound : Outcome
  | summaryUnavailable : Outcome
  | ok : List (String × J) → Option (List (String × J)) →
      Option (List String) → List (String × Option J) → Outcome

/-- The search handler (`app.py` lines 158-231): blank-query guard, both
searches, the `NotFound` stop, QID resolution, entity fetch, sitelink
titles, the summary fallback with its `SummaryUnavailable` stop, the TLE
fallback, and the final table (built by the display code at line 224). -/
def searchFlow (q : String) (use_exact : Bool) (A : Adapters) :
    Except String (Outcome × List Ev) :=
  if pyStrip q = "" then .ok (.emptyQuery, [])
  else
    let title_ko := A.searchTitle q "ko"
    let title_en := A.searchTitle q "en"
    let tr0 := [Ev.search q "ko", Ev.search q "en"]
    if ¬ (otruthy title_ko ∨ otruthy title_en) then .ok (.notFound, tr0)
    else
      let qr := qidResolve A title_ko title_en
      let er := entityPhase A qr.1
      (sitelinkTitles er.1).bind fun kq_eq =>
      (summaryPhase A kq_eq.1 kq_eq.2 title_ko title_en).bind fun sr =>
      if sr.1.isEmpty then
        .ok (.summaryUnavailable, tr0 ++ qr.2 ++ er.2 ++ sr.2)
      else
        (tlePhase A q use_exact kq_eq.1 kq_eq.2 title_ko title_en).bind fun tr =>
        (make_table sr.1 er.1 tr.1).map fun table =>
        (.ok sr.1 er.1 tr.1 table, tr0 ++ qr.2 ++ er.2 ++ sr.2 ++ tr.2)

/-- Stated from the spec's words (§4.1 step 4, claim C1): try the candidate
(title, language) pairs in order, skipping absent/falsy titles, and return
the first non-empty summary, or `none` when every attempt comes back
empty. -/
def firstNonEmptySummary (f : String → String → List (String × J)) :
    List (Option String × String) → Option (List (String × J))
  | [] => none
  | (c, lang) :: rest =>
    if otruthy c then
      if (f (c.getD "") lang).isEmpty then firstNonEmptySummary f rest
      else some (f (c.getD "") lang)
    else firstNonEmptySummary f rest

/-- Stated from the spec's words (claim C1): the summary attempts actually
made, in order, stopping after the first non-empty result. -/
def summaryTriedSpec (f : String → String → List (String × J)) :
    List (Option String × String) → List Ev
  | [] => []
  | (c, lang) :: rest =>
    if otruthy c then
      Ev.summary (c.getD "") lang ::
        (if (f (c.getD "") lang).isEmpty then summaryTriedSpec f rest else [])
    else summaryTriedSpec f rest

/-- Stated from the spec's words (§4.1 step 5, claim C2): try the fallback
candidates in order, skipping absent/falsy ones, stopping at the first
non-empty catalog result. -/
def firstNonEmptyTle (g : String → Option (List String)) :
    List (Option String) → Option (List String)
  | [] => none
  | c :: rest =>
    if otruthy c then
      match g (c.getD "") with
      | some (x :: xs) => some (x :: xs)
      | _ => firstNonEmptyTle g rest
    else firstNonEmptyTle g rest

/-- Stated from the spec's words (claim C2): the catalog fallback attempts
actually made, in order, stopping after the first non-empty result. -/
def tleTriedSpec (g : String → Option (List String)) :
    List (Option String) → List Ev
  | [] => []
  | c :: rest =>
    if otruthy c then
      Ev.tle (c.getD "") ::
        (if tleTruthy (g (c.getD "")) then [] else tleTriedSpec g rest)
    else tleTriedSpec g rest

/-- Fixture: every adapter comes back empty. -/
def adNoHits : Adapters where
  searchTitle := fun _ _ => none
  qidFromTitle := fun _ _ => none
  entityOf := fun _ => []
  summaryOf := fun _ _ => []
  tleOf := fun _ => none

/-- Fixture: both searches hit, nothing downstream resolves. -/
def adNoSummary : Adapters where
  searchTitle := fun _ _ => some "Hubble"
  qidFromTitle := fun _ _ => none
  entityOf := fun _ => []
  summaryOf := fun _ _ => []
  tleOf := fun _ => none

/-- Fixture: only the third-priority summary source (the en canonical
title "EC") has a non-empty summary. -/
def adThird : Adapters where
  searchTitle := fun _ lang => if lang = "ko" then some "KS" else some "ES"
  qidFromTitle := fun _ _ => some "Q1"
  entityOf := fun _ =>
    [("sitelinks", J.obj [("kowiki", J.obj [("title", J.str "KC")]),
       ("enwiki", J.obj [("title", J.str "EC")])])]
  summaryOf := fun t lang =>
    if lang = "en" ∧ t = "EC" then [("title", J.str "third")] else []
  tleOf := fun _ => none

/-- Fixture: the catalog knows only the raw name "RAW"; summaries echo the
title; QIDs never resolve. -/
def adTle : Adapters where
  searchTitle := fun _ lang => if lang = "ko" then some "KS" else some "ES"
  qidFromTitle := fun _ _ => none
  entityOf := fun _ => []
  summaryOf := fun t _ => [("title", J.str t)]
  tleOf := fun n => if n = "RAW" then some ["N", "L1", "L2"] else none

/-- Fixture: QIDs resolve in both languages (to different identifiers). -/
def adQid : Adapters where
  searchTitle := fun _ _ => some "T"
  qidFromTitle := fun _ lang => if lang = "ko" then some "QKO" else some "QEN"
  entityOf := fun _ => []
  summaryOf := fun _ _ => []
  tleOf := fun _ => none

/-- Fixture entity record: P619 carries a time mapping, P247 an empty
string value. -/
def entHubble : List (String × J) :=
  [("claims", J.obj
     [("P619", J.arr [J.obj [("mainsnak", J.obj [("datavalue", J.obj
        [("value", J.obj [("time", J.str "+1990-04-24T00:00:00Z")])])])]]),
      ("P247", J.arr [J.obj [("mainsnak", J.obj [("datavalue", J.obj
        [("value", J.str "")])])]])])]

/-- Fixture entity record: a claims dict without the three display
properties. -/
def entNoProps : List (String × J) :=
  [("claims", J.obj [("P31", J.str "star")])]

@[simp] theorem exbind_ok {α β : Type} (a : α) (f : α → Except String β) :
    (Except.ok a : Except String α).bind f = f a := rfl

@[simp] theorem exbind_err {α β : Type} (e : String) (f : α → Except String β) :
    (Except.error e : Except String α).bind f = .error e := rfl

@[simp] theorem exmap_ok {α β : Type} (a : α) (f : α → β) :
    (Except.ok a : Except String α).map f = .ok (f a) := rfl

@[simp] theorem exmap_err {α β : Type} (e : String) (f : α → β) :
    (Except.error e : Except String α).map f = .error e := rfl

@[simp] theorem otoJ_none : otoJ none = J.null := rfl

@[simp] theorem otoJ_some (s : String) : otoJ (some s) = J.str s := rfl

@[simp] theorem otruthy_none : otruthy none = false := rfl

@[simp] theorem truthy_otoJ (c : Option String) :
    (otoJ c).truthy = otruthy c := by cases c <;> rfl

theorem summaryFold_stop (A : Adapters) :
    ∀ (cs : List (J × String)) (st : List (String × J) × List Ev),
    st.1.isEmpty = false → summaryFold A cs st = .ok st := by
  intro cs
  induction cs with
  | nil => intro st _; rfl
  | cons p rest ih =>
    intro st h
    obtain ⟨c, lang⟩ := p
    simp [summaryFold, attemptSummary, h, ih st h]

theorem summaryFold_run (A : Adapters) :
    ∀ (cs : List (Option String × String)) (tr : List Ev),
    summaryFold A (cs.map fun p => (otoJ p.1, p.2)) ([], tr)
      = .ok ((firstNonEmptySummary A.summaryOf cs).getD [],
          tr ++ summaryTriedSpec A.summaryOf cs) := by
  intro cs
  induction cs with
  | nil => intro tr; simp [summaryFold, firstNonEmptySummary, summaryTriedSpec]
  | cons p rest ih =>
    intro tr
    obtain ⟨c, lang⟩ := p
    cases c with
    | none =>
      simp only [List.map_cons, otoJ_none, summaryFold, attemptSummary,
        J.truthy, List.isEmpty_nil, Bool.not_false, and_false, if_false]
      simp only [Bool.false_eq_true, and_false, if_false, exbind_ok]
      rw [ih tr]
      simp [firstNonEmptySummary, summaryTriedSpec, otruthy]
    | some a =>
      by_cases ha : a.isEmpty
      · simp only [List.map_cons, otoJ_some, summaryFold, attemptSummary,
          J.truthy, List.isEmpty_nil, ha, Bool.not_true, and_false,
          Bool.false_eq_true, if_false, exbind_ok]
        rw [ih tr]
        simp [firstNonEmptySummary, summaryTriedSpec, otruthy, ha]
      · have hg : ((([] : List (String × J)).isEmpty ∧ (J.str a).truthy)) := by
          simp [J.truthy, ha]
        simp only [List.map_cons, otoJ_some, summaryFold, attemptSummary,
          if_pos hg, exbind_ok]
        cases hs : A.summaryOf a lang with
        | nil =>
          rw [ih (tr ++ [Ev.summary a lang])]
          simp [firstNonEmptySummary, summaryTriedSpec, otruthy, ha, hs]
        | cons x xs =>
          rw [summaryFold_stop A (rest.map fun p => (otoJ p.1, p.2))
            ((x :: xs), tr ++ [Ev.summary a lang]) rfl]
          simp [firstNonEmptySummary, summaryTriedSpec, otruthy, ha, hs]

theorem tleFold_stop (A : Adapters) :
    ∀ (cs : List J) (st : Option (List String) × List Ev),
    tleTruthy st.1 = true → tleFold A cs st = .ok st := by
  intro cs
  induction cs with
  | nil => intro st _; rfl
  | cons c rest ih =>
    intro st h
    simp [tleFold, attemptTle, h, ih st h]

theorem tleFold_run (A : Adapters)
    (hg : ∀ n l, A.tleOf n = some l → l ≠ []) :
    ∀ (cs : List (Option String)) (tr : List Ev),
    tleFold A (cs.map otoJ) (none, tr)
      = .ok (firstNonEmptyTle A.tleOf cs, tr ++ tleTriedSpec A.tleOf cs) := by
  intro cs
  induction cs with
  | nil => intro tr; simp [tleFold, firstNonEmptyTle, tleTriedSpec]
  | cons c rest ih =>
    intro tr
    cases c with
    | none =>
      simp only [List.map_cons, otoJ_none, tleFold, attemptTle, tleTruthy,
        J.truthy, Bool.false_eq_true, if_false, exbind_ok]
      rw [ih tr]
      simp [firstNonEmptyTle, tleTriedSpec, otruthy]
    | some a =>
      by_cases ha : a.isEmpty
      · simp only [List.map_cons, otoJ_some, tleFold, attemptTle, tleTruthy,
          J.truthy, ha, Bool.not_true, Bool.false_eq_true, if_false, exbind_ok]
        rw [ih tr]
        simp [firstNonEmptyTle, tleTriedSpec, otruthy, ha]
      · have hcT : (J.str a).truthy = true := by simp [J.truthy, ha]
        simp only [List.map_cons, tleFold, otoJ_some, attemptTle, tleTruthy,
          Bool.false_eq_true, if_false, hcT, if_true, exbind_ok]
        cases hs : A.tleOf a with
        | none =>
          rw [ih (tr ++ [Ev.tle a])]
          simp [firstNonEmptyTle, tleTriedSpec, otruthy, ha, hs, tleTruthy]
        | some l =>
          cases l with
          | nil => exact absurd rfl (hg a [] hs)
          | cons x xs =>
            rw [tleFold_stop A (rest.map otoJ)
              (some (x :: xs), tr ++ [Ev.tle a]) rfl]
            simp [firstNonEmptyTle, tleTriedSpec, otruthy, ha, hs, tleTruthy]

theorem searchFlow_noSummary (A : Adapters) (q : String) (ue : Bool)
    (tko ten qid : Option String) (tr1 : List Ev)
    (ent : Option (List (String × J))) (tr2 : List Ev)
    (kq eq2 : J) (tr3 : List Ev)
    (h0 : ¬ pyStrip q = "")
    (htko : A.searchTitle q "ko" = tko) (hten : A.searchTitle q "en" = ten)
    (h1 : otruthy tko ∨ otruthy ten)
    (hqr : qidResolve A tko ten = (qid, tr1))
    (her : entityPhase A qid = (ent, tr2))
    (hsl : sitelinkTitles ent = .ok (kq, eq2))
    (hsum : summaryPhase A kq eq2 tko ten = .ok ([], tr3)) :
    searchFlow q ue A = .ok (.summaryUnavailable,
      [Ev.search q "ko", Ev.search q "en"] ++ tr1 ++ tr2 ++ tr3) := by
  simp [searchFlow, h0, htko, hten, h1, hqr, her, hsl, hsum]

theorem searchFlow_success (A : Adapters) (q : String) (ue : Bool)
    (tko ten qid : Option String) (tr1 : List Ev)
    (ent : Option (List (String × J))) (tr2 : List Ev)
    (kq eq2 : J) (x : String × J) (xs : List (String × J)) (tr3 : List Ev)
    (tl : Option (List String)) (tr4 : List Ev)
    (table : List (String × Option J))
    (h0 : ¬ pyStrip q = "")
    (htko : A.searchTitle q "ko" = tko) (hten : A.searchTitle q "en" = ten)
    (h1 : otruthy tko ∨ otruthy ten)
    (hqr : qidResolve A tko ten = (qid, tr1))
    (her : entityPhase A qid = (ent, tr2))
    (hsl : sitelinkTitles ent = .ok (kq, eq2))
    (hsum : summaryPhase A kq eq2 tko ten = .ok (x :: xs, tr3))
    (htle : tlePhase A q ue kq eq2 tko ten = .ok (tl, tr4))
    (htab : make_table (x :: xs) ent tl = .ok table) :
    searchFlow q ue A = .ok (.ok (x :: xs) ent tl table,
      [Ev.search q "ko", Ev.search q "en"] ++ tr1 ++ tr2 ++ tr3 ++ tr4) := by
  simp [searchFlow, h0, htko, hten, h1, hqr, her, hsl, hsum, htle, htab]

theorem gcv_claims_missing (ekvs : List (String × J)) (prop kind : String)
    (h : ekvs.lookup "claims" = none) :
    get_claim_value (J.obj ekvs) prop kind = .ok none := by
  simp [get_claim_value, J.getD, h, J.truthy]

theorem gcv_prop_missing (ekvs ckvs : List (String × J)) (prop kind : String)
    (hc : ekvs.lookup "claims" = some (J.obj ckvs))
    (hp : ckvs.lookup prop = none) :
    get_claim_value (J.obj ekvs) prop kind = .ok none := by
  simp [get_claim_value, J.getD, hc, hp, J.truthy]

theorem gcv_mainsnak_missing (ekvs ckvs mkvs : List (String × J))
    (rest : List J) (prop kind : String)
    (hc : ekvs.lookup "claims" = some (J.obj ckvs))
    (hp : ckvs.lookup prop = some (J.arr (J.obj mkvs :: rest)))
    (hm : mkvs.lookup "mainsnak" = none) :
    get_claim_value (J.obj ekvs) prop kind = .ok none := by
  simp [get_claim_value, J.getD, J.getN, hc, hp, hm, J.truthy, J.index0]

theorem gcv_datavalue_missing (ekvs ckvs mkvs skvs : List (String × J))
    (rest : List J) (prop kind : String)
    (hc : ekvs.lookup "claims" = some (J.obj ckvs))
    (hp : ckvs.lookup prop = some (J.arr (J.obj mkvs :: rest)))
    (hm : mkvs.lookup "mainsnak" = some (J.obj skvs))
    (hd : skvs.lookup "datavalue" = none) :
    get_claim_value (J.obj ekvs) prop kind = .ok none := by
  simp [get_claim_value, J.getD, J.getN, hc, hp, hm, hd, J.truthy, J.index0]

theorem gcv_value_missing (ekvs ckvs mkvs skvs dkvs : List (String × J))
    (rest : List J) (prop kind : String)
    (hc : ekvs.lookup "claims" = some (J.obj ckvs))
    (hp : ckvs.lookup prop = some (J.arr (J.obj mkvs :: rest)))
    (hm : mkvs.lookup "mainsnak" = some (J.obj skvs))
    (hd : skvs.lookup "datavalue" = some (J.obj dkvs))
    (hv : dkvs.lookup "value" = none) :
    get_claim_value (J.obj ekvs) prop kind = .ok none := by
  simp [get_claim_value, J.getD, J.getN, hc, hp, hm, hd, hv, J.truthy, J.index0]

theorem gcv_value_falsy (ekvs ckvs mkvs skvs dkvs : List (String × J))
    (rest : List J) (prop kind : String) (v : J)
    (hc : ekvs.lookup "claims" = some (J.obj ckvs))
    (hp : ckvs.lookup prop = some (J.arr (J.obj mkvs :: rest)))
    (hm : mkvs.lookup "mainsnak" = some (J.obj skvs))
    (hd : skvs.lookup "datavalue" = some (J.obj dkvs))
    (hv : dkvs.lookup "value" = some v)
    (hf : v.truthy = false) :
    get_claim_value (J.obj ekvs) prop kind = .ok none := by
  have h1 : (J.arr (J.obj mkvs :: rest)).truthy = true := by simp [J.truthy]
  simp [get_claim_value, J.getD, J.getN, hc, hp, hm, hd, hv, h1, hf, J.index0]

theorem gcv_value_obj (ekvs ckvs mkvs skvs dkvs : List (String × J))
    (rest : List J) (prop : String)
    (w : String × J) (ws : List (String × J))
    (hc : ekvs.lookup "claims" = some (J.obj ckvs))
    (hp : ckvs.lookup prop = some (J.arr (J.obj mkvs :: rest)))
    (hm : mkvs.lookup "mainsnak" = some (J.obj skvs))
    (hd : skvs.lookup "datavalue" = some (J.obj dkvs))
    (hv : dkvs.lookup "value" = some (J.obj (w :: ws))) :
    get_claim_value (J.obj ekvs) prop "time|str"
      = .ok (pyToOpt (jLookupD (w :: ws) "time" J.null)) := by
  simp [get_claim_value, J.getD, J.getN, hc, hp, hm, hd, hv, J.truthy, J.index0]

/-- The shape of one claim entry under which `get_claim_value` cannot raise:
a dict whose `mainsnak`, when present, is a dict whose `datavalue`, when
present, is a dict. -/
def claimShapeOk : J → Bool
  | .obj mkvs =>
    match mkvs.lookup "mainsnak" with
    | none => true
    | some (.obj skvs) =>
      match skvs.lookup "datavalue" with
      | none => true
      | some (.obj _) => true
      | some _ => false
    | some _ => false
  | _ => false

/-- The shape of an entity record under which `get_claim_value` cannot
raise for the given property: a dict whose `claims`, when present, is a
dict in which the property, when present, is a list whose head (if any) is
a well-shaped claim. -/
def entShapeOk (ent : J) (prop : String) : Bool :=
  match ent with
  | .obj ekvs =>
    match ekvs.lookup "claims" with
    | none => true
    | some (.obj ckvs) =>
      match ckvs.lookup prop with
      | none => true
      | some (.arr []) => true
      | some (.arr (c :: _)) => claimShapeOk c
      | some _ => false
    | some _ => false
  | _ => false

theorem gcv_total (ent : J) (prop kind : String)
    (h : entShapeOk ent prop = true) :
    ∃ r, get_claim_value ent prop kind = .ok r := by
  cases ent with
  | obj ekvs =>
    cases hc : ekvs.lookup "claims" with
    | none => exact ⟨none, gcv_claims_missing ekvs prop kind hc⟩
    | some c =>
      cases c with
      | obj ckvs =>
        cases hp : ckvs.lookup prop with
        | none => exact ⟨none, gcv_prop_missing ekvs ckvs prop kind hc hp⟩
        | some v =>
          cases v with
          | arr vs =>
            cases vs with
            | nil => exact ⟨none, by simp [get_claim_value, J.getD, hc, hp, J.truthy]⟩
            | cons c0 rest =>
              have hsh : claimShapeOk c0 = true := by
                simpa [entShapeOk, hc, hp] using h
              cases c0 with
              | obj mkvs =>
                cases hm : mkvs.lookup "mainsnak" with
                | none =>
                  exact ⟨none, gcv_mainsnak_missing ekvs ckvs mkvs rest prop kind hc hp hm⟩
                | some ms =>
                  cases ms with
                  | obj skvs =>
                    cases hd : skvs.lookup "datavalue" with
                    | none =>
                      exact ⟨none, gcv_datavalue_missing ekvs ckvs mkvs skvs rest prop kind hc hp hm hd⟩
                    | some dvv =>
                      cases dvv with
                      | obj dkvs =>
                        cases hv : dkvs.lookup "value" with
                        | none =>
                          exact ⟨none, gcv_value_missing ekvs ckvs mkvs skvs dkvs rest prop kind hc hp hm hd hv⟩
                        | some val =>
                          by_cases hvt : val.truthy = true
                          · by_cases hk : kind = "time|str"
                            · cases val with
                              | obj vkvs =>
                                cases vkvs with
                                | nil => simp [J.truthy] at hvt
                                | cons w ws =>
                                  exact ⟨_, by
                                    subst hk
                                    exact gcv_value_obj ekvs ckvs mkvs skvs dkvs rest prop w ws hc hp hm hd hv⟩
                              | null => simp [J.truthy] at hvt
                              | bool b =>
                                exact ⟨some (J.bool b), by
                                  have h1 : (J.arr (J.obj mkvs :: rest)).truthy = true := by
                                    simp [J.truthy]
                                  simp [get_claim_value, J.getD, J.getN, hc, hp, hm, hd, hv,
                                    h1, hvt, hk, J.index0]⟩
                              | num n =>
                                exact ⟨some (J.num n), by
                                  have h1 : (J.arr (J.obj mkvs :: rest)).truthy = true := by
                                    simp [J.truthy]
                                  simp [get_claim_value, J.getD, J.getN, hc, hp, hm, hd, hv,
                                    h1, hvt, hk, J.index0]⟩
                              | str s =>
                                exact ⟨some (J.str s), by
                                  have h1 : (J.arr (J.obj mkvs :: rest)).truthy = true := by
                                    simp [J.truthy]
                                  simp [get_claim_value, J.getD, J.getN, hc, hp, hm, hd, hv,
                                    h1, hvt, hk, J.index0]⟩
                              | arr vs =>
                                exact ⟨some (J.arr vs), by
                                  have h1 : (J.arr (J.obj mkvs :: rest)).truthy = true := by
                                    simp [J.truthy]
                                  simp [get_claim_value, J.getD, J.getN, hc, hp, hm, hd, hv,
                                    h1, hvt, hk, J.index0]⟩
                            · exact ⟨some val, by
                                have h1 : (J.arr (J.obj mkvs :: rest)).truthy = true := by
                                  simp [J.truthy]
                                simp [get_claim_value, J.getD, J.getN, hc, hp, hm, hd, hv,
                                  h1, hvt, hk, J.index0]⟩
                          · exact ⟨none, gcv_value_falsy ekvs ckvs mkvs skvs dkvs rest prop kind val hc hp hm hd hv (by simpa using hvt)⟩
                      | null => simp [entShapeOk, claimShapeOk, hc, hp, hm, hd] at h
                      | bool b => simp [entShapeOk, claimShapeOk, hc, hp, hm, hd] at h
                      | num n => simp [entShapeOk, claimShapeOk, hc, hp, hm, hd] at h
                      | str s => simp [entShapeOk, claimShapeOk, hc, hp, hm, hd] at h
                      | arr vs => simp [entShapeOk, claimShapeOk, hc, hp, hm, hd] at h
                  | null => simp [claimShapeOk, hm] at hsh
                  | bool b => simp [claimShapeOk, hm] at hsh
                  | num n => simp [claimShapeOk, hm] at hsh
                  | str s => simp [claimShapeOk, hm] at hsh
                  | arr vs => simp [claimShapeOk, hm] at hsh
              | null => simp [claimShapeOk] at hsh
              | bool b => simp [claimShapeOk] at hsh
              | num n => simp [claimShapeOk] at hsh
              | str s => simp [claimShapeOk] at hsh
              | arr vs => simp [claimShapeOk] at hsh
          | null => simp [entShapeOk, hc, hp] at h
          | bool b => simp [entShapeOk, hc, hp] at h
          | num n => simp [entShapeOk, hc, hp] at h
          | str s => simp [entShapeOk, hc, hp] at h
          | obj kvs2 => simp [entShapeOk, hc, hp] at h
      | null => simp [entShapeOk, hc] at h
      | bool b => simp [entShapeOk, hc] at h
      | num n => simp [entShapeOk, hc] at h
      | str s => simp [entShapeOk, hc] at h
      | arr vs => simp [entShapeOk, hc] at h
  | null => simp [entShapeOk] at h
  | bool b => simp [entShapeOk] at h
  | num n => simp [entShapeOk] at h
  | str s => simp [entShapeOk] at h
  | arr vs => simp [entShapeOk] at h

theorem claimTriple_none : claimTriple none = .ok (none, none, none) := rfl

theorem claimTriple_missing (ekvs ckvs : List (String × J))
    (hc : ekvs.lookup "claims" = some (J.obj ckvs))
    (h619 : ckvs.lookup "P619" = none)
    (h247 : ckvs.lookup "P247" = none)
    (h593 : ckvs.lookup "P593" = none) :
    claimTriple (some ekvs) = .ok (none, none, none) := by
  cases ekvs with
  | nil => simp at hc
  | cons e es =>
    simp [claimTriple, entTruthy,
      gcv_prop_missing (e :: es) ckvs "P619" "time|str" hc h619,
      gcv_prop_missing (e :: es) ckvs "P247" "time|str" hc h247,
      gcv_prop_missing (e :: es) ckvs "P593" "time|str" hc h593]

theorem make_table_ok_shape (summary : List (String × J))
    (ent : Option (List (String × J))) (tl : Option (List String))
    (rows : List (String × Option J))
    (h : make_table summary ent tl = .ok rows) :
    ∃ lcn : Option J × Option J × Option J,
      rows = [("제목(Title)", pyToOpt (jLookupD summary "title" J.null)),
              ("설명(Description)", pyToOpt (jLookupD summary "description" J.null)),
              ("발사일(Launch Date)", lcn.1), ("COSPAR ID", lcn.2.1),
              ("NORAD ID", lcn.2.2)] ++ tleRows tl := by
  simp only [make_table] at h
  cases hE : claimTriple ent with
  | error e => rw [hE] at h; simp at h
  | ok lcn =>
    rw [hE] at h
    simp at h
    exact ⟨lcn, h.symm⟩

theorem tleTriedSpec_only_cands (g : String → Option (List String)) :
    ∀ (cs : List (Option String)) (e : Ev), e ∈ tleTriedSpec g cs →
      ∃ c, c ∈ cs ∧ otruthy c = true ∧ e = Ev.tle (c.getD "") := by
  intro cs
  induction cs with
  | nil => intro e h; simp [tleTriedSpec] at h
  | cons c rest ih =>
    intro e h
    by_cases hc : otruthy c = true
    · simp only [tleTriedSpec, hc, if_true, List.mem_cons] at h
      rcases h with h | h
      · exact ⟨c, by simp, hc, h⟩
      · by_cases ht : tleTruthy (g (c.getD "")) = true
        · simp [ht] at h
        · simp only [ht, Bool.false_eq_true, if_false] at h
          rcases ih e h with ⟨c2, hm, ho, he⟩
          exact ⟨c2, by simp [hm], ho, he⟩
    · simp only [tleTriedSpec, hc, if_false] at h
      rcases ih e h with ⟨c2, hm, ho, he⟩
      exact ⟨c2, by simp [hm], ho, he⟩

theorem tlePhase_exact_hit (A : Adapters) (q : String) (kq eq2 : J)
    (tko ten : Option String) (l : List String) (h : A.tleOf q = some l) :
    tlePhase A q true kq eq2 tko ten = .ok (some l, [Ev.tle q]) := by
  simp [tlePhase, h]

theorem tlePhase_false_run (A : Adapters)
    (hg : ∀ n l, A.tleOf n = some l → l ≠ []) (q : String)
    (cko sko cen sen : Option String) :
    tlePhase A q false (otoJ cko) (otoJ cen) sko sen
      = .ok (firstNonEmptyTle A.tleOf [cen, sen, cko, sko],
          tleTriedSpec A.tleOf [cen, sen, cko, sko]) := by
  have h := tleFold_run A hg [cen, sen, cko, sko] []
  simpa [tlePhase, tleCands] using h

theorem tlePhase_exact_miss_run (A : Adapters)
    (hg : ∀ n l, A.tleOf n = some l → l ≠ []) (q : String)
    (cko sko cen sen : Option String) (h : A.tleOf q = none) :
    tlePhase A q true (otoJ cko) (otoJ cen) sko sen
      = .ok (firstNonEmptyTle A.tleOf [cen, sen, cko, sko],
          Ev.tle q :: tleTriedSpec A.tleOf [cen, sen, cko, sko]) := by
  have h2 := tleFold_run A hg [cen, sen, cko, sko] [Ev.tle q]
  simpa [tlePhase, tleCands, h] using h2

/-- C3: for every query whose ko-language and en-language searches both
return no title (and whose stripped text is non-blank, so the searches are
reached), the flow terminates with the `NotFound` outcome and the event
trace holds exactly the two search calls — no entity-resolution,
entity-fact, summary, or catalog adapter is called afterwards. -/
theorem C3_notFound (A : Adapters) (q : String) (ue : Bool)
    (h0 : ¬ pyStrip q = "")
    (hko : otruthy (A.searchTitle q "ko") = false)
    (hen : otruthy (A.searchTitle q "en") = false) :
    searchFlow q ue A = .ok (.notFound, [Ev.search q "ko", Ev.search q "en"]) := by
  simp [searchFlow, h0, hko, hen]

/-- C3 witness: a concrete query against adapters with no search hits. -/
theorem C3_notFound_witness :
    searchFlow "Voyager" true adNoHits
      = .ok (.notFound, [Ev.search "Voyager" "ko", Ev.search "Voyager" "en"]) :=
  C3_notFound adNoHits "Voyager" true (by decide) rfl rfl

/-- C4: entity-identifier resolution tries the ko search title first; the
en search title is consulted only when the ko attempt yielded no (truthy)
identifier or there was no ko title; when the ko attempt resolves, its
identifier is the one kept and the en title is never consulted. -/
theorem C4_qid_priority :
    (∀ (A : Adapters) (tko ten : Option String),
        otruthy tko = true →
        otruthy (A.qidFromTitle (tko.getD "") "ko") = true →
        qidResolve A tko ten
          = (A.qidFromTitle (tko.getD "") "ko", [Ev.qid (tko.getD "") "ko"])) ∧
    (∀ (A : Adapters) (tko ten : Option String),
        otruthy tko = true →
        otruthy (A.qidFromTitle (tko.getD "") "ko") = false →
        otruthy ten = true →
        qidResolve A tko ten
          = (A.qidFromTitle (ten.getD "") "en",
             [Ev.qid (tko.getD "") "ko", Ev.qid (ten.getD "") "en"])) ∧
    (∀ (A : Adapters) (tko ten : Option String),
        otruthy tko = false → otruthy ten = true →
        qidResolve A tko ten
          = (A.qidFromTitle (ten.getD "") "en", [Ev.qid (ten.getD "") "en"])) := by
  refine ⟨?_, ?_, ?_⟩
  · intro A tko ten hko hq
    simp [qidResolve, hko, hq]
  · intro A tko ten hko hq hen
    simp [qidResolve, hko, hq, hen]
  · intro A tko ten hko hen
    simp [qidResolve, hko, hen]

/-- C4 witness: concrete resolutions for the three branches. -/
theorem C4_qid_priority_witness :
    qidResolve adQid (some "tko") (some "ten")
      = (some "QKO", [Ev.qid "tko" "ko"]) ∧
    qidResolve adNoHits (some "tko") (some "ten")
      = (none, [Ev.qid "tko" "ko", Ev.qid "ten" "en"]) ∧
    qidResolve adQid none (some "ten")
      = (some "QEN", [Ev.qid "ten" "en"]) :=
  ⟨C4_qid_priority.1 adQid (some "tko") (some "ten") (by decide) (by decide),
   C4_qid_priority.2.1 adNoHits (some "tko") (some "ten") (by decide) rfl (by decide),
   C4_qid_priority.2.2 adQid none (some "ten") rfl (by decide)⟩

theorem qidScan_none :
    ∀ (kvs : List (String × J)),
    (∀ pg ∈ kvs, ∃ pp q2, (pg.2).getD "pageprops" (J.obj []) = .ok pp ∧
        pp.getN "wikibase_item" = .ok q2 ∧ q2.truthy = false) →
    qidScan kvs = .ok none := by
  intro kvs
  induction kvs with
  | nil => intro _; rfl
  | cons pg rest ih =>
    intro h
    obtain ⟨k, pv⟩ := pg
    rcases h (k, pv) (by simp) with ⟨pp, q2, hpp, hq, hf⟩
    simp only [] at hpp hq
    simp [qidScan, hpp, hq, hf,
      ih (fun p hp => h p (List.mem_cons_of_mem _ hp))]

/-- C5 counterexample: every adapter propagates a network failure as a
raised exception, and a non-success status need not yield an absent result
either — a 500 response whose body is not JSON makes the search adapter
raise a decode error. -/
theorem C5_soft_failure_counterexample :
    wiki_search_title Http.netfail = .error "RequestException" ∧
    wiki_summary Http.netfail = .error "RequestException" ∧
    wikidata_qid_from_title Http.netfail = .error "RequestException" ∧
    wikidata_entity "Q2513" Http.netfail = .error "RequestException" ∧
    celestrak_tle Http.netfail = .error "RequestException" ∧
    wiki_search_title (Http.resp 500 none) = .error "JSONDecodeError" :=
  ⟨rfl, rfl, rfl, rfl, rfl, rfl⟩

/-- C5 (amended): a network failure raises from every adapter.  A
non-success HTTP status yields the empty/absent result from the summary
and catalog adapters, which check the status; the search,
entity-resolution, and entity-fact adapters ignore the status and parse
the body instead — for every JSON body from which the expected fields are
missing or empty (a falsy hit list, no page with a truthy wikibase item,
no entity under the identifier) the result is empty/absent whatever the
status, while a body that is not JSON raises a decode error (as does a
200 non-JSON body in the summary adapter). -/
theorem C5_soft_failure_amended :
    (wiki_search_title Http.netfail = .error "RequestException" ∧
     wiki_summary Http.netfail = .error "RequestException" ∧
     wikidata_qid_from_title Http.netfail = .error "RequestException" ∧
     (∀ qid : String, wikidata_entity qid Http.netfail = .error "RequestException") ∧
     celestrak_tle Http.netfail = .error "RequestException") ∧
    (∀ (s : Nat) (b : Option J), ¬ s = 200 →
        wiki_summary (Http.resp s b) = .ok (J.obj [])) ∧
    (∀ (s : Nat) (t : String), ¬ s = 200 →
        celestrak_tle (Http.resp s t) = .ok none) ∧
    (∀ (s : Nat) (j qv hits : J),
        j.getD "query" (J.obj []) = .ok qv →
        qv.getD "search" (J.arr []) = .ok hits →
        hits.truthy = false →
        wiki_search_title (Http.resp s (some j)) = .ok none) ∧
    (∀ (s : Nat) (j qv : J) (kvs : List (String × J)),
        j.getD "query" (J.obj []) = .ok qv →
        qv.getD "pages" (J.obj []) = .ok (J.obj kvs) →
        (∀ pg ∈ kvs, ∃ pp q2, (pg.2).getD "pageprops" (J.obj []) = .ok pp ∧
            pp.getN "wikibase_item" = .ok q2 ∧ q2.truthy = false) →
        wikidata_qid_from_title (Http.resp s (some j)) = .ok none) ∧
    (∀ (s : Nat) (j : J) (ekvs : List (String × J)) (qid : String),
        j.getD "entities" (J.obj []) = .ok (J.obj ekvs) →
        ekvs.lookup qid = none →
        wikidata_entity qid (Http.resp s (some j)) = .ok (J.obj [])) ∧
    (∀ s : Nat, wiki_search_title (Http.resp s none) = .error "JSONDecodeError") ∧
    (∀ s : Nat,
        wikidata_qid_from_title (Http.resp s none) = .error "JSONDecodeError") ∧
    (∀ (s : Nat) (qid : String),
        wikidata_entity qid (Http.resp s none) = .error "JSONDecodeError") ∧
    wiki_summary (Http.resp 200 none) = .error "JSONDecodeError" := by
  refine ⟨⟨rfl, rfl, rfl, fun _ => rfl, rfl⟩, ?_, ?_, ?_, ?_, ?_,
    fun _ => rfl, fun _ => rfl, fun _ _ => rfl, rfl⟩
  · intro s b h
    simp [wiki_summary, h]
  · intro s t h
    simp [celestrak_tle, h]
  · intro s j qv hits h1 h2 h3
    simp [wiki_search_title, h1, h2, h3]
  · intro s j qv kvs h1 h2 hall
    simp [wikidata_qid_from_title, h1, h2, qidScan_none kvs hall]
  · intro s j ekvs qid h1 h2
    simp only [wikidata_entity]
    rw [h1]
    simp [J.getD, h2]

/-- C5 witness: concrete non-success statuses soft-fail in the two
status-checking adapters, and concrete non-success JSON responses without
the expected fields soft-fail in the three status-ignoring adapters. -/
theorem C5_soft_failure_witness :
    wiki_summary (Http.resp 404 (some (J.obj [("x", J.str "y")]))) = .ok (J.obj []) ∧
    celestrak_tle (Http.resp 500 "ISS (ZARYA)") = .ok none ∧
    wiki_search_title (Http.resp 500
        (some (J.obj [("query", J.obj [("search", J.arr [])])]))) = .ok none ∧
    wikidata_qid_from_title (Http.resp 500
        (some (J.obj [("query", J.obj [("pages",
          J.obj [("123", J.obj [("ns", J.num 0)])])])]))) = .ok none ∧
    wikidata_entity "Q1" (Http.resp 500
        (some (J.obj [("entities", J.obj [])]))) = .ok (J.obj []) :=
  ⟨C5_soft_failure_amended.2.1 404 (some (J.obj [("x", J.str "y")])) (by decide),
   C5_soft_failure_amended.2.2.1 500 "ISS (ZARYA)" (by decide),
   C5_soft_failure_amended.2.2.2.1 500
     (J.obj [("query", J.obj [("search", J.arr [])])])
     (J.obj [("search", J.arr [])]) (J.arr []) rfl rfl rfl,
   C5_soft_failure_amended.2.2.2.2.1 500
     (J.obj [("query", J.obj [("pages", J.obj [("123", J.obj [("ns", J.num 0)])])])])
     (J.obj [("pages", J.obj [("123", J.obj [("ns", J.num 0)])])])
     [("123", J.obj [("ns", J.num 0)])] rfl rfl
     (by
       intro pg hpg
       simp at hpg
       subst hpg
       exact ⟨J.obj [], J.null, rfl, rfl, rfl⟩),
   C5_soft_failure_amended.2.2.2.2.2.1 500
     (J.obj [("entities", J.obj [])]) [] "Q1" rfl rfl⟩

/-- C6 counterexample: a 200 response whose text holds a single non-blank
line yields a one-element record, not an ordered triple of three lines. -/
theorem C6_tle_lines_counterexample :
    celestrak_tle (Http.resp 200 "ONEWEB-0001") = .ok (some ["ONEWEB-0001"]) ∧
    ¬ (["ONEWEB-0001"] : List String).length = 3 :=
  ⟨rfl, by decide⟩

/-- C6 (amended): the catalog adapter returns absent exactly when the
status is non-success, the text holds the no-data marker, or the text has
no non-blank lines; otherwise it returns the first up-to-three non-blank
lines — exactly three whenever at least three exist. -/
theorem C6_tle_lines_amended : ∀ (s : Nat) (t : String),
    (celestrak_tle (Http.resp s t) = .ok none ↔
      (¬ s = 200 ∨ hasNoGPMarker t = true ∨ nonblankLines t = [])) ∧
    (s = 200 → hasNoGPMarker t = false → ¬ nonblankLines t = [] →
      celestrak_tle (Http.resp s t) = .ok (some ((nonblankLines t).take 3)) ∧
      (3 ≤ (nonblankLines t).length → ((nonblankLines t).take 3).length = 3)) := by
  intro s t
  by_cases hs : s = 200
  · subst hs
    by_cases hm : hasNoGPMarker t = true
    · constructor
      · simp [celestrak_tle, hm]
      · intro _ hm2 _
        rw [hm] at hm2
        cases hm2
    · cases he : nonblankLines t with
      | nil =>
        constructor
        · simp [celestrak_tle, hm, he]
        · intro _ _ hne
          exact absurd rfl hne
      | cons a as =>
        constructor
        · simp [celestrak_tle, hm, he]
        · intro _ _ _
          constructor
          · simp [celestrak_tle, hm, he]
          · intro h3
            rw [List.length_take]
            omega
  · constructor
    · simp [celestrak_tle, hs]
    · intro h200
      exact absurd h200 hs

/-- C6 witness: a four-line 200 response gives exactly the first three
non-blank lines. -/
theorem C6_tle_lines_witness :
    celestrak_tle (Http.resp 200 "A\nB\nC\nD") = .ok (some ["A", "B", "C"]) ∧
    ((nonblankLines "A\nB\nC\nD").take 3).length = 3 := by
  have h := (C6_tle_lines_amended 200 "A\nB\nC\nD").2 rfl (by decide) (by decide)
  refine ⟨?_, h.2 (by decide)⟩
  rw [h.1]
  rfl

/-- C7 counterexample: with the property present but its first claim's
`mainsnak` a string (a malformed intermediate), the accessor raises
`AttributeError` instead of returning absent. -/
theorem C7_accessor_counterexample :
    get_claim_value
      (J.obj [("claims", J.obj [("P619",
        J.arr [J.obj [("mainsnak", J.str "bad")]])])])
      "P619" "time|str" = .error "AttributeError" := rfl

/-- C7 (amended): the accessor never raises on well-shaped records
(`entShapeOk`), and returns absent — without error — whenever the property
is missing from the claims mapping or any intermediate nested field
(claims, mainsnak, datavalue, value) is absent; an intermediate that is
present but not a mapping raises instead of yielding absent. -/
theorem C7_accessor_amended :
    (∀ (ent : J) (prop kind : String), entShapeOk ent prop = true →
        ∃ r, get_claim_value ent prop kind = .ok r) ∧
    (∀ (ekvs : List (String × J)) (prop kind : String),
        ekvs.lookup "claims" = none →
        get_claim_value (J.obj ekvs) prop kind = .ok none) ∧
    (∀ (ekvs ckvs : List (String × J)) (prop kind : String),
        ekvs.lookup "claims" = some (J.obj ckvs) →
        ckvs.lookup prop = none →
        get_claim_value (J.obj ekvs) prop kind = .ok none) ∧
    (∀ (ekvs ckvs mkvs : List (String × J)) (rest : List J) (prop kind : String),
        ekvs.lookup "claims" = some (J.obj ckvs) →
        ckvs.lookup prop = some (J.arr (J.obj mkvs :: rest)) →
        mkvs.lookup "mainsnak" = none →
        get_claim_value (J.obj ekvs) prop kind = .ok none) ∧
    (∀ (ekvs ckvs mkvs skvs : List (String × J)) (rest : List J) (prop kind : String),
        ekvs.lookup "claims" = some (J.obj ckvs) →
        ckvs.lookup prop = some (J.arr (J.obj mkvs :: rest)) →
        mkvs.lookup "mainsnak" = some (J.obj skvs) →
        skvs.lookup "datavalue" = none →
        get_claim_value (J.obj ekvs) prop kind = .ok none) ∧
    (∀ (ekvs ckvs mkvs skvs dkvs : List (String × J)) (rest : List J) (prop kind : String),
        ekvs.lookup "claims" = some (J.obj ckvs) →
        ckvs.lookup prop = some (J.arr (J.obj mkvs :: rest)) →
        mkvs.lookup "mainsnak" = some (J.obj skvs) →
        skvs.lookup "datavalue" = some (J.obj dkvs) →
        dkvs.lookup "value" = none →
        get_claim_value (J.obj ekvs) prop kind = .ok none) :=
  ⟨gcv_total, gcv_claims_missing, gcv_prop_missing, gcv_mainsnak_missing,
   gcv_datavalue_missing, gcv_value_missing⟩

/-- C7 witness: a missing property and a missing claims mapping both give
absent without error on a concrete record. -/
theorem C7_accessor_witness :
    get_claim_value (J.obj entHubble) "P9999" "time|str" = .ok none ∧
    get_claim_value (J.obj [("labels", J.str "x")]) "P619" "time|str" = .ok none :=
  ⟨C7_accessor_amended.2.2.1 entHubble
     [("P619", J.arr [J.obj [("mainsnak", J.obj [("datavalue", J.obj
        [("value", J.obj [("time", J.str "+1990-04-24T00:00:00Z")])])])]]),
      ("P247", J.arr [J.obj [("mainsnak", J.obj [("datavalue", J.obj
        [("value", J.str "")])])]])]
     "P9999" "time|str" rfl rfl,
   C7_accessor_amended.2.1 [("labels", J.str "x")] "P619" "time|str" rfl⟩

/-- C9: when the extracted claim value is a (non-empty) mapping, the
accessor returns that mapping's "time" entry — Python `None`, i.e. absent,
when the key is missing; and a present but falsy value (for example the
empty string) yields absent, exactly as a missing claim does. -/
theorem C9_time_extraction :
    (∀ (ekvs ckvs mkvs skvs dkvs : List (String × J)) (rest : List J)
        (prop : String) (w : String × J) (ws : List (String × J)),
        ekvs.lookup "claims" = some (J.obj ckvs) →
        ckvs.lookup prop = some (J.arr (J.obj mkvs :: rest)) →
        mkvs.lookup "mainsnak" = some (J.obj skvs) →
        skvs.lookup "datavalue" = some (J.obj dkvs) →
        dkvs.lookup "value" = some (J.obj (w :: ws)) →
        get_claim_value (J.obj ekvs) prop "time|str"
          = .ok (pyToOpt (jLookupD (w :: ws) "time" J.null))) ∧
    (∀ (ekvs ckvs mkvs skvs dkvs : List (String × J)) (rest : List J)
        (prop : String) (v : J),
        ekvs.lookup "claims" = some (J.obj ckvs) →
        ckvs.lookup prop = some (J.arr (J.obj mkvs :: rest)) →
        mkvs.lookup "mainsnak" = some (J.obj skvs) →
        skvs.lookup "datavalue" = some (J.obj dkvs) →
        dkvs.lookup "value" = some v →
        v.truthy = false →
        get_claim_value (J.obj ekvs) prop "time|str" = .ok none) :=
  ⟨fun ekvs ckvs mkvs skvs dkvs rest prop w ws hc hp hm hd hv =>
     gcv_value_obj ekvs ckvs mkvs skvs dkvs rest prop w ws hc hp hm hd hv,
   fun ekvs ckvs mkvs skvs dkvs rest prop v hc hp hm hd hv hf =>
     gcv_value_falsy ekvs ckvs mkvs skvs dkvs rest prop "time|str" v hc hp hm hd hv hf⟩

/-- C9 witness: the fixture record's P619 time mapping yields the time
string; its P247 empty-string value yields absent. -/
theorem C9_time_extraction_witness :
    get_claim_value (J.obj entHubble) "P619" "time|str"
      = .ok (some (J.str "+1990-04-24T00:00:00Z")) ∧
    get_claim_value (J.obj entHubble) "P247" "time|str" = .ok none :=
  ⟨C9_time_extraction.1
     [("claims", J.obj
        [("P619", J.arr [J.obj [("mainsnak", J.obj [("datavalue", J.obj
           [("value", J.obj [("time", J.str "+1990-04-24T00:00:00Z")])])])]]),
         ("P247", J.arr [J.obj [("mainsnak", J.obj [("datavalue", J.obj
           [("value", J.str "")])])]])])]
     [("P619", J.arr [J.obj [("mainsnak", J.obj [("datavalue", J.obj
        [("value", J.obj [("time", J.str "+1990-04-24T00:00:00Z")])])])]]),
      ("P247", J.arr [J.obj [("mainsnak", J.obj [("datavalue", J.obj
        [("value", J.str "")])])]])]
     [("mainsnak", J.obj [("datavalue", J.obj
        [("value", J.obj [("time", J.str "+1990-04-24T00:00:00Z")])])])]
     [("datavalue", J.obj [("value", J.obj [("time", J.str "+1990-04-24T00:00:00Z")])])]
     [("value", J.obj [("time", J.str "+1990-04-24T00:00:00Z")])]
     [] "P619" ("time", J.str "+1990-04-24T00:00:00Z") []
     rfl rfl rfl rfl rfl,
   C9_time_extraction.2
     [("claims", J.obj
        [("P619", J.arr [J.obj [("mainsnak", J.obj [("datavalue", J.obj
           [("value", J.obj [("time", J.str "+1990-04-24T00:00:00Z")])])])]]),
         ("P247", J.arr [J.obj [("mainsnak", J.obj [("datavalue", J.obj
           [("value", J.str "")])])]])])]
     [("P619", J.arr [J.obj [("mainsnak", J.obj [("datavalue", J.obj
        [("value", J.obj [("time", J.str "+1990-04-24T00:00:00Z")])])])]]),
      ("P247", J.arr [J.obj [("mainsnak", J.obj [("datavalue", J.obj
        [("value", J.str "")])])]])]
     [("mainsnak", J.obj [("datavalue", J.obj [("value", J.str "")])])]
     [("datavalue", J.obj [("value", J.str "")])]
     [("value", J.str "")]
     [] "P247" (J.str "")
     rfl rfl rfl rfl rfl rfl⟩

/-- C1: the summary is built by trying the adapter in strict priority order
— ko canonical title, ko search title, en canonical title, en search title
— skipping absent titles and stopping at the first non-empty result (the
phase's value and call trace match the priority-selection specification);
in particular, when the first two sources are empty or absent and the en
canonical title's summary is non-empty, that content is the summary used;
and when every attempt comes back empty the flow terminates with the
`SummaryUnavailable` outcome. -/
theorem C1_summary_priority :
    (∀ (A : Adapters) (cko sko cen sen : Option String),
        summaryPhase A (otoJ cko) (otoJ cen) sko sen
          = .ok ((firstNonEmptySummary A.summaryOf
                [(cko, "ko"), (sko, "ko"), (cen, "en"), (sen, "en")]).getD [],
              summaryTriedSpec A.summaryOf
                [(cko, "ko"), (sko, "ko"), (cen, "en"), (sen, "en")])) ∧
    (∀ (A : Adapters) (cko sko cen sen : Option String) (s : List (String × J)),
        (otruthy cko = true → A.summaryOf (cko.getD "") "ko" = []) →
        (otruthy sko = true → A.summaryOf (sko.getD "") "ko" = []) →
        otruthy cen = true → A.summaryOf (cen.getD "") "en" = s → ¬ s = [] →
        summaryPhase A (otoJ cko) (otoJ cen) sko sen
          = .ok (s, summaryTriedSpec A.summaryOf
              [(cko, "ko"), (sko, "ko"), (cen, "en"), (sen, "en")])) ∧
    (∀ (A : Adapters) (q : String) (ue : Bool) (tko ten qid : Option String)
        (tr1 : List Ev) (ent : Option (List (String × J))) (tr2 : List Ev)
        (kq eq2 : J) (tr3 : List Ev),
        ¬ pyStrip q = "" →
        A.searchTitle q "ko" = tko → A.searchTitle q "en" = ten →
        otruthy tko ∨ otruthy ten →
        qidResolve A tko ten = (qid, tr1) →
        entityPhase A qid = (ent, tr2) →
        sitelinkTitles ent = .ok (kq, eq2) →
        summaryPhase A kq eq2 tko ten = .ok ([], tr3) →
        searchFlow q ue A = .ok (.summaryUnavailable,
          [Ev.search q "ko", Ev.search q "en"] ++ tr1 ++ tr2 ++ tr3)) := by
  have hrun : ∀ (A : Adapters) (cko sko cen sen : Option String),
      summaryPhase A (otoJ cko) (otoJ cen) sko sen
        = .ok ((firstNonEmptySummary A.summaryOf
              [(cko, "ko"), (sko, "ko"), (cen, "en"), (sen, "en")]).getD [],
            summaryTriedSpec A.summaryOf
              [(cko, "ko"), (sko, "ko"), (cen, "en"), (sen, "en")]) := by
    intro A cko sko cen sen
    have h := summaryFold_run A [(cko, "ko"), (sko, "ko"), (cen, "en"), (sen, "en")] []
    simpa [summaryPhase, summaryCands] using h
  refine ⟨hrun, ?_, ?_⟩
  · intro A cko sko cen sen s h1 h2 h3 h4 h5
    have h5e : s.isEmpty = false := by
      cases s with
      | nil => exact absurd rfl h5
      | cons a as => rfl
    rw [hrun A cko sko cen sen]
    have hsel : firstNonEmptySummary A.summaryOf
        [(cko, "ko"), (sko, "ko"), (cen, "en"), (sen, "en")] = some s := by
      by_cases hc : otruthy cko = true
      · by_cases hk : otruthy sko = true
        · simp [firstNonEmptySummary, hc, hk, h1 hc, h2 hk, h3, h4, h5e]
        · simp [firstNonEmptySummary, hc, hk, h1 hc, h3, h4, h5e]
      · by_cases hk : otruthy sko = true
        · simp [firstNonEmptySummary, hc, hk, h2 hk, h3, h4, h5e]
        · simp [firstNonEmptySummary, hc, hk, h3, h4, h5e]
    rw [hsel]
    rfl
  · intro A q ue tko ten qid tr1 ent tr2 kq eq2 tr3 h0 htko hten h1 hqr her hsl hsum
    exact searchFlow_noSummary A q ue tko ten qid tr1 ent tr2 kq eq2 tr3
      h0 htko hten h1 hqr her hsl hsum

/-- C1 witness: with only the third-priority source non-empty its content
is used; with every source empty the flow ends `SummaryUnavailable`. -/
theorem C1_summary_priority_witness :
    summaryPhase adThird (otoJ (some "KC")) (otoJ (some "EC"))
        (some "KS") (some "ES")
      = .ok ([("title", J.str "third")],
          summaryTriedSpec adThird.summaryOf
            [(some "KC", "ko"), (some "KS", "ko"), (some "EC", "en"),
             (some "ES", "en")]) ∧
    searchFlow "sat" true adNoSummary
      = .ok (.summaryUnavailable,
          [Ev.search "sat" "ko", Ev.search "sat" "en"]
            ++ [Ev.qid "Hubble" "ko", Ev.qid "Hubble" "en"] ++ []
            ++ [Ev.summary "Hubble" "ko", Ev.summary "Hubble" "en"]) :=
  ⟨C1_summary_priority.2.1 adThird (some "KC") (some "KS") (some "EC") (some "ES")
     [("title", J.str "third")] (fun _ => rfl) (fun _ => rfl) (by decide) rfl
     (by simp),
   C1_summary_priority.2.2 adNoSummary "sat" true (some "Hubble") (some "Hubble")
     none [Ev.qid "Hubble" "ko", Ev.qid "Hubble" "en"] none [] J.null J.null
     [Ev.summary "Hubble" "ko", Ev.summary "Hubble" "en"]
     (by decide) rfl rfl (Or.inl rfl) rfl rfl rfl rfl⟩

/-- C2: with the exact-match flag set and the raw query returning catalog
data, no fallback candidate is attempted; with the flag unset (or the
exact attempt empty) the fallback candidates run in the order en-canonical,
en-search, ko-canonical, ko-search, skipping absent ones and stopping at
the first non-empty result; with the flag unset the raw query itself is
never sent (its event cannot appear in the trace unless it coincides with
a candidate title); and when every attempt is empty the flow still
succeeds, with a result record carrying no catalog lines. -/
theorem C2_tle_resolution :
    (∀ (A : Adapters) (q : String) (kq eq2 : J) (tko ten : Option String)
        (l : List String), A.tleOf q = some l →
        tlePhase A q true kq eq2 tko ten = .ok (some l, [Ev.tle q])) ∧
    (∀ (A : Adapters), (∀ n l, A.tleOf n = some l → l ≠ []) →
        ∀ (q : String) (cko sko cen sen : Option String),
        tlePhase A q false (otoJ cko) (otoJ cen) sko sen
          = .ok (firstNonEmptyTle A.tleOf [cen, sen, cko, sko],
              tleTriedSpec A.tleOf [cen, sen, cko, sko])) ∧
    (∀ (A : Adapters), (∀ n l, A.tleOf n = some l → l ≠ []) →
        ∀ (q : String) (cko sko cen sen : Option String), A.tleOf q = none →
        tlePhase A q true (otoJ cko) (otoJ cen) sko sen
          = .ok (firstNonEmptyTle A.tleOf [cen, sen, cko, sko],
              Ev.tle q :: tleTriedSpec A.tleOf [cen, sen, cko, sko])) ∧
    (∀ (A : Adapters) (q : String) (cko sko cen sen : Option String)
        (r : Option (List String)) (tr : List Ev),
        (∀ c, c ∈ [cen, sen, cko, sko] → otruthy c = true → ¬ c.getD "" = q) →
        (∀ n l, A.tleOf n = some l → l ≠ []) →
        tlePhase A q false (otoJ cko) (otoJ cen) sko sen = .ok (r, tr) →
        ¬ Ev.tle q ∈ tr) ∧
    (∀ (A : Adapters) (q : String) (ue : Bool) (tko ten qid : Option String)
        (tr1 : List Ev) (ent : Option (List (String × J))) (tr2 : List Ev)
        (kq eq2 : J) (x : String × J) (xs : List (String × J)) (tr3 tr4 : List Ev)
        (table : List (String × Option J)),
        ¬ pyStrip q = "" →
        A.searchTitle q "ko" = tko → A.searchTitle q "en" = ten →
        otruthy tko ∨ otruthy ten →
        qidResolve A tko ten = (qid, tr1) →
        entityPhase A qid = (ent, tr2) →
        sitelinkTitles ent = .ok (kq, eq2) →
        summaryPhase A kq eq2 tko ten = .ok (x :: xs, tr3) →
        tlePhase A q ue kq eq2 tko ten = .ok (none, tr4) →
        make_table (x :: xs) ent none = .ok table →
        searchFlow q ue A = .ok (.ok (x :: xs) ent none table,
          [Ev.search q "ko", Ev.search q "en"] ++ tr1 ++ tr2 ++ tr3 ++ tr4)) := by
  refine ⟨?_, ?_, ?_, ?_, ?_⟩
  · intro A q kq eq2 tko ten l h
    exact tlePhase_exact_hit A q kq eq2 tko ten l h
  · intro A hg q cko sko cen sen
    exact tlePhase_false_run A hg q cko sko cen sen
  · intro A hg q cko sko cen sen h
    exact tlePhase_exact_miss_run A hg q cko sko cen sen h
  · intro A q cko sko cen sen r tr hne hg heq hmem
    rw [tlePhase_false_run A hg q cko sko cen sen] at heq
    injection heq with h2
    injection h2 with h3 h4
    subst h4
    rcases tleTriedSpec_only_cands A.tleOf [cen, sen, cko, sko]
      (Ev.tle q) hmem with ⟨c, hcm, hct, hce⟩
    injection hce with h5
    exact (hne c hcm hct) h5.symm
  · intro A q ue tko ten qid tr1 ent tr2 kq eq2 x xs tr3 tr4 table
      h0 htko hten h1 hqr her hsl hsum htle htab
    exact searchFlow_success A q ue tko ten qid tr1 ent tr2 kq eq2 x xs tr3
      none tr4 table h0 htko hten h1 hqr her hsl hsum htle htab

/-- C2 witness: the exact hit returns immediately; with the flag unset the
fallback chain runs (all candidates empty here); an all-empty run of the
whole flow succeeds with no catalog lines. -/
theorem C2_tle_resolution_witness :
    tlePhase adTle "RAW" true J.null J.null (some "KS") (some "ES")
      = .ok (some ["N", "L1", "L2"], [Ev.tle "RAW"]) ∧
    tlePhase adTle "RAW" false (otoJ none) (otoJ none) (some "KS") (some "ES")
      = .ok (firstNonEmptyTle adTle.tleOf [none, some "ES", none, some "KS"],
          tleTriedSpec adTle.tleOf [none, some "ES", none, some "KS"]) ∧
    searchFlow "ZARYA" false adTle
      = .ok (.ok [("title", J.str "KS")] none none
            [("제목(Title)", some (J.str "KS")), ("설명(Description)", none),
             ("발사일(Launch Date)", none), ("COSPAR ID", none), ("NORAD ID", none)],
          [Ev.search "ZARYA" "ko", Ev.search "ZARYA" "en"]
            ++ [Ev.qid "KS" "ko", Ev.qid "ES" "en"] ++ []
            ++ [Ev.summary "KS" "ko"] ++ [Ev.tle "ES", Ev.tle "KS"]) := by
  have hg : ∀ n l, adTle.tleOf n = some l → l ≠ [] := by
    intro n l h
    by_cases hn : n = "RAW"
    · subst hn
      simp [adTle] at h
      rw [← h]
      simp
    · simp [adTle, hn] at h
  refine ⟨C2_tle_resolution.1 adTle "RAW" J.null J.null (some "KS") (some "ES")
      ["N", "L1", "L2"] (by simp [adTle]),
    C2_tle_resolution.2.1 adTle hg "RAW" none (some "KS") none (some "ES"),
    C2_tle_resolution.2.2.2.2 adTle "ZARYA" false (some "KS") (some "ES") none
      [Ev.qid "KS" "ko", Ev.qid "ES" "en"] none [] J.null J.null
      ("title", J.str "KS") [] [Ev.summary "KS" "ko"] [Ev.tle "ES", Ev.tle "KS"]
      [("제목(Title)", some (J.str "KS")), ("설명(Description)", none),
       ("발사일(Launch Date)", none), ("COSPAR ID", none), ("NORAD ID", none)]
      (by decide) rfl rfl (Or.inl rfl) rfl rfl rfl rfl rfl rfl⟩

/-- C8: the three fixed claims (P619, P247, P593) are read only when an
entity record exists (a missing record leaves all three fields empty), and
a record whose claims lack the properties likewise yields empty fields;
in both cases `make_table` succeeds — an absent entity, absent claim, or
absent catalog match never aborts the construction. -/
theorem C8_claims_graceful :
    (∀ (summary : List (String × J)) (tl : Option (List String)),
        make_table summary none tl
          = .ok ([("제목(Title)", pyToOpt (jLookupD summary "title" J.null)),
                  ("설명(Description)",
                    pyToOpt (jLookupD summary "description" J.null)),
                  ("발사일(Launch Date)", none), ("COSPAR ID", none),
                  ("NORAD ID", none)] ++ tleRows tl)) ∧
    (∀ (summary : List (String × J)) (tl : Option (List String))
        (ekvs ckvs : List (String × J)),
        ekvs.lookup "claims" = some (J.obj ckvs) →
        ckvs.lookup "P619" = none → ckvs.lookup "P247" = none →
        ckvs.lookup "P593" = none →
        make_table summary (some ekvs) tl
          = .ok ([("제목(Title)", pyToOpt (jLookupD summary "title" J.null)),
                  ("설명(Description)",
                    pyToOpt (jLookupD summary "description" J.null)),
                  ("발사일(Launch Date)", none), ("COSPAR ID", none),
                  ("NORAD ID", none)] ++ tleRows tl)) := by
  constructor
  · intro summary tl
    simp [make_table, claimTriple_none]
  · intro summary tl ekvs ckvs hc h1 h2 h3
    simp [make_table, claimTriple_missing ekvs ckvs hc h1 h2 h3]

/-- C8 witness: a record with claims but none of the three properties, and
an absent catalog match, still produce a complete row list. -/
theorem C8_claims_graceful_witness :
    make_table [("title", J.str "Hubble")] (some entNoProps) none
      = .ok ([("제목(Title)", pyToOpt (jLookupD [("title", J.str "Hubble")] "title" J.null)),
              ("설명(Description)",
                pyToOpt (jLookupD [("title", J.str "Hubble")] "description" J.null)),
              ("발사일(Launch Date)", none), ("COSPAR ID", none),
              ("NORAD ID", none)] ++ tleRows none) :=
  C8_claims_graceful.2 [("title", J.str "Hubble")] none entNoProps
    [("P31", J.str "star")] rfl rfl rfl rfl

/-- C10: every successful `make_table` result has the fixed field labels in
the fixed order — five rows when the catalog lines are absent (falsy),
eight when present; and a catalog list with fewer than three entries fills
the missing TLE rows with absent values without any error. -/
theorem C10_table_rows :
    (∀ (summary : List (String × J)) (ent : Option (List (String × J)))
        (tl : Option (List String)) (rows : List (String × Option J)),
        make_table summary ent tl = .ok rows →
        rows.map Prod.fst
          = ["제목(Title)", "설명(Description)", "발사일(Launch Date)",
             "COSPAR ID", "NORAD ID"]
              ++ (if tleTruthy tl = true then
                    ["TLE Name", "TLE Line 1", "TLE Line 2"] else [])
          ∧ (tleTruthy tl = false → rows.length = 5)
          ∧ (tleTruthy tl = true → rows.length = 8)) ∧
    (∀ (summary : List (String × J)) (x : String),
        make_table summary none (some [x])
          = .ok [("제목(Title)", pyToOpt (jLookupD summary "title" J.null)),
                 ("설명(Description)",
                   pyToOpt (jLookupD summary "description" J.null)),
                 ("발사일(Launch Date)", none), ("COSPAR ID", none),
                 ("NORAD ID", none),
                 ("TLE Name", some (J.str x)), ("TLE Line 1", none),
                 ("TLE Line 2", none)]) := by
  constructor
  · intro summary ent tl rows h
    rcases make_table_ok_shape summary ent tl rows h with ⟨lcn, hrows⟩
    subst hrows
    by_cases ht : tleTruthy tl = true
    · simp [tleRows, ht]
    · simp [tleRows, ht]
  · intro summary x
    simp [make_table, claimTriple_none, tleRows, tleTruthy]

/-- C10 witness: a concrete three-line catalog result gives the eight
labelled rows. -/
theorem C10_table_rows_witness :
    ([("제목(Title)", (none : Option J)), ("설명(Description)", none),
      ("발사일(Launch Date)", none), ("COSPAR ID", none), ("NORAD ID", none),
      ("TLE Name", some (J.str "N")), ("TLE Line 1", some (J.str "L1")),
      ("TLE Line 2", some (J.str "L2"))].map Prod.fst
        = ["제목(Title)", "설명(Description)", "발사일(Launch Date)",
           "COSPAR ID", "NORAD ID", "TLE Name", "TLE Line 1", "TLE Line 2"])
      ∧ ([("제목(Title)", (none : Option J)), ("설명(Description)", none),
          ("발사일(Launch Date)", none), ("COSPAR ID", none), ("NORAD ID", none),
          ("TLE Name", some (J.str "N")), ("TLE Line 1", some (J.str "L1")),
          ("TLE Line 2", some (J.str "L2"))] : List (String × Option J)).length = 8 := by
  have h := C10_table_rows.1 [] none (some ["N", "L1", "L2"])
    [("제목(Title)", none), ("설명(Description)", none),
     ("발사일(Launch Date)", none), ("COSPAR ID", none), ("NORAD ID", none),
     ("TLE Name", some (J.str "N")), ("TLE Line 1", some (J.str "L1")),
     ("TLE Line 2", some (J.str "L2"))] rfl
  refine ⟨?_, h.2.2 rfl⟩
  rw [h.1]
  rfl
